import Mathlib

/-!
Shallow embedding of the Inventory Management System (src/main.py).

The program keeps four pieces of global mutable state: `inventory` (a Python
dict from product name to a dict with Price/Category/Stock), `transactions`
(a list of audit tuples), `sales` (a list of sale tuples), and the session
globals `logged_in_user` / `user_role`, together with two fixed credential
dicts `admin_credentials` and `user_credentials`.  Here the whole of that
state is a `State` record and every operation is a pure function from a
`State` (plus its arguments and, where the code calls `datetime.now()`, an
explicit timestamp string) to a result and a new `State`.

Python dicts preserve insertion order; assignment to an existing key keeps
its position.  They are embedded as association lists with `pyLookup`,
`pySet` (replace in place, else append) and `pyDel`.

Numbers: the Gradio front end delivers stock and quantity through
`gr.Number`; stock arithmetic in the program is plain subtraction with no
range check, so stocks and quantities are embedded as `Int`.  Prices take
part in no arithmetic relevant here and are embedded as `Int` as well.

Persistence (`save_inventory`, `save_transactions`, `save_sales`,
`load_data`) only mirrors the in-memory state to CSV files and never feeds
back into the operations below, so the file writes are not modelled.
-/

namespace IMS

/-- One inventory record: the value dict `{'Price': ..., 'Category': ..., 'Stock': ...}`. -/
structure Product where
  price : Int
  category : String
  stock : Int
deriving Repr, DecidableEq

/-- One audit tuple appended by `log_transaction`:
`(len(transactions)+1, action, product_name, quantity, logged_in_user, timestamp)`. -/
structure Transaction where
  id : Nat
  action : String
  product_name : String
  quantity : Int
  user : Option String
  timestamp : String
deriving Repr, DecidableEq

/-- One sales tuple appended by `sale_product`:
`(sale_id, product_name, quantity, timestamp)`. -/
structure Sale where
  id : Nat
  product_name : String
  quantity : Int
  timestamp : String
deriving Repr, DecidableEq

/-- The global mutable state of main.py. -/
structure State where
  inventory : List (String × Product)
  transactions : List Transaction
  sales : List Sale
  admin_credentials : List (String × String)
  user_credentials : List (String × String)
  logged_in_user : Option String
  user_role : Option String
deriving Repr, DecidableEq

/-- Python dict membership / indexing: first (and only) binding for a key. -/
def pyLookup {α : Type} : List (String × α) → String → Option α
  | [], _ => none
  | (k, v) :: rest, key => if k = key then some v else pyLookup rest key

/-- Python dict assignment `d[key] = v`: replace in place if the key exists,
otherwise append at the end (dicts preserve insertion order). -/
def pySet {α : Type} : List (String × α) → String → α → List (String × α)
  | [], key, v => [(key, v)]
  | (k, w) :: rest, key, v =>
      if k = key then (k, v) :: rest else (k, w) :: pySet rest key v

/-- Python `del d[key]`: remove the binding for the key. -/
def pyDel {α : Type} : List (String × α) → String → List (String × α)
  | [], _ => []
  | (k, w) :: rest, key => if k = key then rest else (k, w) :: pyDel rest key

/-- main.py:80 `is_logged_in`: `logged_in_user is not None`. -/
def is_logged_in (s : State) : Bool :=
  s.logged_in_user.isSome

/-- main.py:77 `is_admin`: `user_role == "admin"`. -/
def is_admin (s : State) : Bool :=
  s.user_role = some "admin"

/-- main.py:61 membership-and-equality test
`username in table and table[username] == password`. -/
def credMatch (table : List (String × String)) (username password : String) : Bool :=
  pyLookup table username = some password

/-- main.py:59 `login(username, password)`: tries the admin table first,
then the user table; on a match sets the session globals, otherwise
returns "Invalid credentials" leaving everything unchanged. -/
def login (s : State) (username password : String) : String × State :=
  if credMatch s.admin_credentials username password then
    ("Admin login successful",
      { s with logged_in_user := some username, user_role := some "admin" })
  else if credMatch s.user_credentials username password then
    ("User login successful",
      { s with logged_in_user := some username, user_role := some "user" })
  else
    ("Invalid credentials", s)

/-- main.py:71 `logout()`: clears both session globals. -/
def logout (s : State) : String × State :=
  ("Logged out successfully", { s with logged_in_user := none, user_role := none })

/-- main.py:243 `log_transaction(action, product_name, quantity)`: appends
`(len(transactions)+1, action, product_name, quantity, logged_in_user, ts)`
to the transactions list. -/
def log_transaction (s : State) (action product_name : String) (quantity : Int)
    (ts : String) : State :=
  { s with transactions :=
      s.transactions ++
        [⟨s.transactions.length + 1, action, product_name, quantity,
          s.logged_in_user, ts⟩] }

/-- main.py:86 `add_product`: login guard, admin guard, duplicate check;
otherwise insert the record, persist, and log an Add audit entry with
quantity = stock. -/
def add_product (s : State) (product_name : String) (price : Int)
    (category : String) (stock : Int) (ts : String) : String × State :=
  if is_logged_in s = false then ("Please login to perform this action", s)
  else if is_admin s = false then ("Admin access required", s)
  else if (pyLookup s.inventory product_name).isSome then
    ("Product already exists", s)
  else
    let inv := pySet s.inventory product_name ⟨price, category, stock⟩
    let s1 := { s with inventory := inv }
    ("Product \x27" ++ product_name ++ "\x27 added successfully.",
      log_transaction s1 "Add" product_name stock ts)

/-- main.py:98 `update_product`: login guard, admin guard, existence check;
otherwise replace the whole record, persist, and log an Update audit entry
with quantity = stock. -/
def update_product (s : State) (product_name : String) (price : Int)
    (category : String) (stock : Int) (ts : String) : String × State :=
  if is_logged_in s = false then ("Please login to perform this action", s)
  else if is_admin s = false then ("Admin access required", s)
  else if (pyLookup s.inventory product_name).isNone then
    ("Product not found", s)
  else
    let inv := pySet s.inventory product_name ⟨price, category, stock⟩
    let s1 := { s with inventory := inv }
    ("Product \x27" ++ product_name ++ "\x27 updated successfully.",
      log_transaction s1 "Update" product_name stock ts)

/-- main.py:110 `delete_product`: login guard, admin guard, existence check;
otherwise delete the record, persist, and log a Delete audit entry with
quantity = 0. -/
def delete_product (s : State) (product_name : String) (ts : String) :
    String × State :=
  if is_logged_in s = false then ("Please login to perform this action", s)
  else if is_admin s = false then ("Admin access required", s)
  else if (pyLookup s.inventory product_name).isNone then
    ("Product not found", s)
  else
    let s1 := { s with inventory := pyDel s.inventory product_name }
    ("Product \x27" ++ product_name ++ "\x27 deleted successfully.",
      log_transaction s1 "Delete" product_name 0 ts)

/-- main.py:122 `view_inventory`: login guard, then the inventory rows in
dict iteration order (insertion order).  The DataFrame built from the dict
carries exactly these rows; it is returned, the state is untouched. -/
def view_inventory (s : State) : Except String (List (String × Product)) :=
  if is_logged_in s = false then Except.error "Please login to view the inventory"
  else Except.ok s.inventory

/-- Python substring test `needle in haystack` on lists of characters:
does the second list occur contiguously in the first? -/
def charsStartWith : List Char → List Char → Bool
  | _, [] => true
  | [], _ :: _ => false
  | c :: cs, d :: ds => c = d && charsStartWith cs ds

/-- Auxiliary recursion for the substring test. -/
def charsContain : List Char → List Char → Bool
  | [], needle => needle.isEmpty
  | c :: cs, needle => charsStartWith (c :: cs) needle || charsContain cs needle

/-- Python `needle in haystack` for strings. -/
def strContains (haystack needle : String) : Bool :=
  charsContain haystack.toList needle.toList

/-- main.py:133 `search_products_by_category(category=None)`: login guard;
if the category argument is truthy (not None and not the empty string),
keep the rows whose Category contains it case-insensitively; otherwise
return everything. -/
def search_products_by_category (s : State) (category : Option String) :
    Except String (List (String × Product)) :=
  if is_logged_in s = false then Except.error "Please login to search products"
  else
    match category with
    | none => Except.ok s.inventory
    | some c =>
        if c = "" then Except.ok s.inventory
        else Except.ok (s.inventory.filter
          (fun r => strContains r.2.category.toLower c.toLower))

/-- main.py:164 `low_stock_alerts(threshold=10)`: login guard, then the rows
with Stock less than or equal to the threshold. -/
def low_stock_alerts (s : State) (threshold : Int) :
    Except String (List (String × Product)) :=
  if is_logged_in s = false then
    Except.error "Please login to view low stock alerts"
  else Except.ok (s.inventory.filter (fun r => r.2.stock ≤ threshold))

/-- Key comparison used by the embedded sort: is row a at most row b in the
chosen column? -/
def rowLE (byField : String) (a b : String × Product) : Bool :=
  if byField = "Product Name" then a.1 ≤ b.1
  else if byField = "Price" then a.2.price ≤ b.2.price
  else if byField = "Category" then a.2.category ≤ b.2.category
  else a.2.stock ≤ b.2.stock

/-- Insertion into a list sorted by the given comparison. -/
def insertRow {α : Type} (le : α → α → Bool) (a : α) : List α → List α
  | [] => [a]
  | b :: rest => if le a b then a :: b :: rest else b :: insertRow le a rest

/-- Insertion sort by the given comparison. -/
def insertionSort {α : Type} (le : α → α → Bool) : List α → List α
  | [] => []
  | a :: rest => insertRow le a (insertionSort le rest)

/-- main.py:230 `sort_inventory(by, order)`: login guard; if `by` is one of
the four column names, return the rows sorted on that column, ascending
exactly when order == "asc", else unsorted.  The code delegates the row
ordering to pandas `DataFrame.sort_values` with its default kind
("quicksort", not stable): the relative order of rows that tie on the sort
column is implementation-defined there.  This embedding fixes one
admissible order (a stable sort on the column for "asc", a stable sort on
the flipped comparison otherwise); only the guard, the row multiset and
the sortedness on the chosen column are determined by the source. -/
def sort_inventory (s : State) (byField order : String) :
    Except String (List (String × Product)) :=
  if is_logged_in s = false then Except.error "Please login to sort the inventory"
  else if byField = "Product Name" ∨ byField = "Price" ∨
      byField = "Category" ∨ byField = "Stock" then
    if order = "asc" then Except.ok (insertionSort (rowLE byField) s.inventory)
    else Except.ok (insertionSort (fun a b => rowLE byField b a) s.inventory)
  else Except.ok s.inventory

/-- main.py:248 `view_transactions`: login guard, then the transactions
list as a DataFrame; the state is untouched. -/
def view_transactions (s : State) : Except String (List Transaction) :=
  if is_logged_in s = false then Except.error "Please login to view transactions"
  else Except.ok s.transactions

/-- main.py:257 `sale_product(product_name, quantity)`: login guard (no
admin check), ProductNotFound check, then the stock test
`inventory[product_name]['Stock'] < quantity`; on success the stock is
decremented in place, inventory persisted, and
`(len(sales)+1, product_name, quantity, ts)` is appended to sales.  No
audit entry is logged. -/
def sale_product (s : State) (product_name : String) (quantity : Int)
    (ts : String) : String × State :=
  if is_logged_in s = false then ("Please login to perform this action", s)
  else
    match pyLookup s.inventory product_name with
    | none => ("Product not found", s)
    | some p =>
        if p.stock < quantity then ("Insufficient stock", s)
        else
          ("Sold " ++ toString quantity ++ " of \x27" ++ product_name ++ "\x27",
            { s with
              inventory := pySet s.inventory product_name
                { p with stock := p.stock - quantity },
              sales := s.sales ++
                [⟨s.sales.length + 1, product_name, quantity, ts⟩] })

/-- Result of `predict_sales`: the guard message, the normal return value
(the path of the chart it saved), or a Python exception escaping the
function, which has no try/except of its own. -/
inductive PredictResult where
  | guarded (msg : String)
  | chart (path : String)
  | unhandled (exn : String)
deriving Repr, DecidableEq

/-- main.py:280 `predict_sales(product_name, periods=12)`: login guard;
filters the sales list to the given product.  When the filtered list is
empty the month resampling produces an empty frame and
`LinearRegression().fit(X, y)` raises
`ValueError: Found array with 0 sample(s)` (sklearn validation rejects an
empty design matrix); nothing in `predict_sales` catches it, so the
exception propagates to the caller.  With at least one sale the fit
succeeds (one feature, any positive sample count), the chart is saved and
the function returns the literal path "sales_prediction.png"; the
regression and plotting determine only the picture, not the return value,
so they are not further modelled. -/
def predict_sales (s : State) (product_name : String) (periods : Nat) :
    PredictResult :=
  if is_logged_in s = false then
    PredictResult.guarded "Please login to perform this action"
  else if (s.sales.filter (fun r => r.product_name = product_name)).isEmpty then
    PredictResult.unhandled "ValueError: Found array with 0 sample(s)"
  else
    PredictResult.chart "sales_prediction.png"

/-- Does a `predict_sales` call escape as an uncaught exception rather than
return a value (guard message or chart) to the caller? -/
def isUnhandledFault : PredictResult → Bool
  | PredictResult.unhandled _ => true
  | _ => false

/-- The state-changing operations reachable from the Gradio front end,
with the wall-clock timestamp an explicit argument. -/
inductive Op where
  | login (username password : String)
  | logout
  | add (product_name : String) (price : Int) (category : String)
        (stock : Int) (ts : String)
  | update (product_name : String) (price : Int) (category : String)
        (stock : Int) (ts : String)
  | delete (product_name : String) (ts : String)
  | sell (product_name : String) (quantity : Int) (ts : String)
deriving Repr, DecidableEq

/-- Run one operation for its state effect. -/
def applyOp (s : State) : Op → State
  | Op.login u p => (login s u p).2
  | Op.logout => (logout s).2
  | Op.add n pr c st ts => (add_product s n pr c st ts).2
  | Op.update n pr c st ts => (update_product s n pr c st ts).2
  | Op.delete n ts => (delete_product s n ts).2
  | Op.sell n q ts => (sale_product s n q ts).2

/-- Run a sequence of operations. -/
def runOps (s : State) (ops : List Op) : State :=
  ops.foldl applyOp s

/-- The guards under which an inventory mutation goes through and logs an
audit entry: logged in, admin, and the duplicate/existence check of the
respective operation. -/
def mutationSucceeds (s : State) : Op → Bool
  | Op.add n _ _ _ _ =>
      is_logged_in s && is_admin s && (pyLookup s.inventory n).isNone
  | Op.update n _ _ _ _ =>
      is_logged_in s && is_admin s && (pyLookup s.inventory n).isSome
  | Op.delete n _ =>
      is_logged_in s && is_admin s && (pyLookup s.inventory n).isSome
  | _ => false

/-- The audit-log ids are exactly 1, 2, ..., n in list order. -/
def auditIdsDense (l : List Transaction) : Prop :=
  l.map (fun t => t.id) = List.range' 1 l.length

instance (l : List Transaction) : Decidable (auditIdsDense l) := by
  unfold auditIdsDense
  infer_instance

/-- Every stock in the inventory is non-negative. -/
def stocksNonneg (inv : List (String × Product)) : Prop :=
  ∀ r ∈ inv, 0 ≤ r.2.stock

instance (inv : List (String × Product)) : Decidable (stocksNonneg inv) := by
  unfold stocksNonneg
  infer_instance

/-- Does an operation carry a non-negative stock argument?  `add` and
`update` write their stock argument into the inventory unchecked; every
other operation is unrestricted. -/
def opStockSafe : Op → Prop
  | Op.add _ _ _ st _ => 0 ≤ st
  | Op.update _ _ _ st _ => 0 ≤ st
  | _ => True

instance (o : Op) : Decidable (opStockSafe o) := by
  cases o <;> (unfold opStockSafe; infer_instance)

/-- The process-start state of main.py when no CSV files exist yet:
empty inventory, empty logs, the two literal credential dicts, nobody
logged in. -/
def initState : State :=
  { inventory := []
    transactions := []
    sales := []
    admin_credentials := [("harsh", "harsh")]
    user_credentials := [("user", "user")]
    logged_in_user := none
    user_role := none }

/-- A state with the admin logged in (as produced by `login "harsh" "harsh"`
from `initState`). -/
def adminState : State :=
  { initState with logged_in_user := some "harsh", user_role := some "admin" }

/-- A state with the non-admin user logged in. -/
def userState : State :=
  { initState with logged_in_user := some "user", user_role := some "user" }

/-- An admin session with one product "A" (price 2, category "c", stock 5)
in the inventory. -/
def stockState : State :=
  { adminState with inventory := [("A", ⟨2, "c", 5⟩)] }

/-! Association-list lemmas for the Python-dict embedding. -/

theorem pyLookup_pySet_self {α : Type} (l : List (String × α)) (k : String) (v : α) :
    pyLookup (pySet l k v) k = some v := by
  induction l with
  | nil => simp [pySet, pyLookup]
  | cons hd tl ih =>
      cases hd with
      | mk a b =>
          by_cases h : a = k
          · simp [pySet, pyLookup, h]
          · simp [pySet, pyLookup, h, ih]

theorem pyLookup_pySet_ne {α : Type} (l : List (String × α)) (k m : String) (v : α)
    (h : m ≠ k) : pyLookup (pySet l k v) m = pyLookup l m := by
  have hne : ∀ a : String, a = k → ¬ a = m := by
    intro a ha hm
    exact h (hm ▸ ha)
  induction l with
  | nil =>
      simp only [pySet, pyLookup]
      rw [if_neg (hne k rfl)]
  | cons hd tl ih =>
      cases hd with
      | mk a b =>
          by_cases ha : a = k
          · subst ha
            simp [pySet, pyLookup, hne a rfl]
          · simp [pySet, pyLookup, ha, ih]

theorem mem_pySet {α : Type} (l : List (String × α)) (k : String) (v : α)
    (x : String × α) (hx : x ∈ pySet l k v) : x = (k, v) ∨ x ∈ l := by
  induction l with
  | nil =>
      simp only [pySet, List.mem_singleton] at hx
      exact Or.inl hx
  | cons hd tl ih =>
      cases hd with
      | mk a b =>
          by_cases ha : a = k
          · subst ha
            simp only [pySet, eq_self_iff_true, if_true, List.mem_cons] at hx
            rcases hx with h1 | h1
            · exact Or.inl h1
            · exact Or.inr (List.mem_cons_of_mem _ h1)
          · simp only [pySet, if_neg ha, List.mem_cons] at hx
            rcases hx with h1 | h1
            · exact Or.inr (List.mem_cons.mpr (Or.inl h1))
            · rcases ih h1 with h2 | h2
              · exact Or.inl h2
              · exact Or.inr (List.mem_cons_of_mem _ h2)

theorem mem_pyDel {α : Type} (l : List (String × α)) (k : String)
    (x : String × α) (hx : x ∈ pyDel l k) : x ∈ l := by
  induction l with
  | nil =>
      simp only [pyDel] at hx
      exact absurd hx (List.not_mem_nil x)
  | cons hd tl ih =>
      cases hd with
      | mk a b =>
          by_cases ha : a = k
          · simp only [pyDel, if_pos ha] at hx
            exact List.mem_cons_of_mem _ hx
          · simp only [pyDel, if_neg ha, List.mem_cons] at hx
            rcases hx with h1 | h1
            · exact List.mem_cons.mpr (Or.inl h1)
            · exact List.mem_cons_of_mem _ (ih h1)

theorem pyLookup_mem {α : Type} (l : List (String × α)) (k : String) (v : α)
    (h : pyLookup l k = some v) : (k, v) ∈ l := by
  induction l with
  | nil => simp [pyLookup] at h
  | cons hd tl ih =>
      cases hd with
      | mk a b =>
          by_cases ha : a = k
          · subst ha
            simp only [pyLookup, eq_self_iff_true, if_true] at h
            rcases Option.some.inj h with hbv
            rw [← hbv]
            exact List.mem_cons_self _ _
          · simp only [pyLookup, if_neg ha] at h
            exact List.mem_cons_of_mem _ (ih h)

/-- C1: with a logged-in session, `sale_product` returns "Insufficient
stock" whenever the requested quantity exceeds the product's stock, and
"Product not found" whenever the product is absent; in both cases the
returned state is exactly the input state, so the inventory, the sales
ledger and the audit log are all unchanged. -/
theorem sale_product_failure_frame (s : State) (n : String) (q : Int) (ts : String)
    (hli : is_logged_in s = true) :
    (∀ p, pyLookup s.inventory n = some p → p.stock < q →
        sale_product s n q ts = ("Insufficient stock", s)) ∧
    (pyLookup s.inventory n = none →
        sale_product s n q ts = ("Product not found", s)) := by
  constructor
  · intro p hp hq
    simp [sale_product, hli, hp, hq]
  · intro hp
    simp [sale_product, hli, hp]

/-- Witness for C1 at a concrete state: selling 10 of product "A" (stock 5)
fails with "Insufficient stock" and returns the state unchanged, and
selling an absent product "B" fails with "Product not found". -/
theorem sale_product_failure_frame_witness :
    sale_product stockState "A" 10 "t" = ("Insufficient stock", stockState) ∧
    sale_product stockState "B" 1 "t" = ("Product not found", stockState) :=
  ⟨(sale_product_failure_frame stockState "A" 10 "t" rfl).1 ⟨2, "c", 5⟩ rfl (by decide),
   (sale_product_failure_frame stockState "B" 1 "t" rfl).2 rfl⟩

/-- C2: a successful sale (logged in, product present, quantity at most the
stock) appends exactly one record, with the next sequential id, to the
sales ledger (so its length grows by 1), decrements the stock of the sold
product by exactly the quantity while leaving its price and category and
every other product's record unchanged, and leaves the audit log
(transactions) untouched. -/
theorem sale_product_success_frame (s : State) (n : String) (p : Product)
    (q : Int) (ts : String)
    (hli : is_logged_in s = true)
    (hp : pyLookup s.inventory n = some p)
    (hq : q ≤ p.stock) :
    (sale_product s n q ts).2.sales =
        s.sales ++ [⟨s.sales.length + 1, n, q, ts⟩] ∧
    (sale_product s n q ts).2.sales.length = s.sales.length + 1 ∧
    pyLookup (sale_product s n q ts).2.inventory n =
        some ⟨p.price, p.category, p.stock - q⟩ ∧
    (∀ m, m ≠ n → pyLookup (sale_product s n q ts).2.inventory m =
        pyLookup s.inventory m) ∧
    (sale_product s n q ts).2.transactions = s.transactions := by
  have hnot : ¬ p.stock < q := not_lt.mpr hq
  refine ⟨?_, ?_, ?_, ?_, ?_⟩
  · simp [sale_product, hli, hp, hnot]
  · simp [sale_product, hli, hp, hnot]
  · simp [sale_product, hli, hp, hnot, pyLookup_pySet_self]
  · intro m hm
    simp [sale_product, hli, hp, hnot, pyLookup_pySet_ne _ _ _ _ hm]
  · simp [sale_product, hli, hp, hnot]

/-- Witness for C2: selling 3 of product "A" (stock 5) from `stockState`
appends sale record 1 and leaves stock 2. -/
theorem sale_product_success_frame_witness :
    (sale_product stockState "A" 3 "t").2.sales =
        stockState.sales ++ [⟨stockState.sales.length + 1, "A", 3, "t"⟩] ∧
    pyLookup (sale_product stockState "A" 3 "t").2.inventory "A" =
        some ⟨2, "c", 2⟩ ∧
    (sale_product stockState "A" 3 "t").2.transactions = stockState.transactions := by
  have h := sale_product_success_frame stockState "A" ⟨2, "c", 5⟩ 3 "t" rfl rfl (by decide)
  exact ⟨h.1, h.2.2.1, h.2.2.2.2⟩

/-! Audit-log lemmas. -/

theorem auditIdsDense_append (l : List Transaction) (t : Transaction)
    (h : auditIdsDense l) (ht : t.id = l.length + 1) :
    auditIdsDense (l ++ [t]) := by
  unfold auditIdsDense at h ⊢
  rw [List.map_append, h, List.length_append, List.map_singleton, ht,
    List.length_singleton, List.range'_1_concat, Nat.add_comm 1 l.length]

theorem transactions_applyOp (s : State) (o : Op) :
    (applyOp s o).transactions = s.transactions ∨
    ∃ t : Transaction, t.id = s.transactions.length + 1 ∧
      (applyOp s o).transactions = s.transactions ++ [t] := by
  cases o with
  | login u p =>
      left
      by_cases h1 : credMatch s.admin_credentials u p <;>
        by_cases h2 : credMatch s.user_credentials u p <;>
        simp [applyOp, login, h1, h2]
  | logout => left; simp [applyOp, logout]
  | add n pr c st ts =>
      by_cases h1 : is_logged_in s = false
      · left; simp [applyOp, add_product, h1]
      · by_cases h2 : is_admin s = false
        · left; simp [applyOp, add_product, h1, h2]
        · by_cases h3 : (pyLookup s.inventory n).isSome = true
          · left; simp [applyOp, add_product, h1, h2, h3]
          · right
            refine ⟨⟨s.transactions.length + 1, "Add", n, st, s.logged_in_user, ts⟩,
              rfl, ?_⟩
            simp [applyOp, add_product, h1, h2, h3, log_transaction]
  | update n pr c st ts =>
      by_cases h1 : is_logged_in s = false
      · left; simp [applyOp, update_product, h1]
      · by_cases h2 : is_admin s = false
        · left; simp [applyOp, update_product, h1, h2]
        · by_cases h3 : (pyLookup s.inventory n).isNone = true
          · left; simp [applyOp, update_product, h1, h2, h3]
          · right
            refine ⟨⟨s.transactions.length + 1, "Update", n, st, s.logged_in_user, ts⟩,
              rfl, ?_⟩
            simp [applyOp, update_product, h1, h2, h3, log_transaction]
  | delete n ts =>
      by_cases h1 : is_logged_in s = false
      · left; simp [applyOp, delete_product, h1]
      · by_cases h2 : is_admin s = false
        · left; simp [applyOp, delete_product, h1, h2]
        · by_cases h3 : (pyLookup s.inventory n).isNone = true
          · left; simp [applyOp, delete_product, h1, h2, h3]
          · right
            refine ⟨⟨s.transactions.length + 1, "Delete", n, 0, s.logged_in_user, ts⟩,
              rfl, ?_⟩
            simp [applyOp, delete_product, h1, h2, h3, log_transaction]
  | sell n q ts =>
      left
      by_cases h1 : is_logged_in s = false
      · simp [applyOp, sale_product, h1]
      · cases hp : pyLookup s.inventory n with
        | none => simp [applyOp, sale_product, h1, hp]
        | some p =>
            by_cases h2 : p.stock < q <;> simp [applyOp, sale_product, h1, hp, h2]

theorem mutation_appends (s : State) (o : Op) (h : mutationSucceeds s o = true) :
    ∃ t : Transaction, (applyOp s o).transactions = s.transactions ++ [t] ∧
      t.id = s.transactions.length + 1 := by
  cases o with
  | login u p => simp [mutationSucceeds] at h
  | logout => simp [mutationSucceeds] at h
  | sell n q ts => simp [mutationSucceeds] at h
  | add n pr c st ts =>
      simp only [mutationSucceeds, Bool.and_eq_true] at h
      obtain ⟨⟨h1, h2⟩, h3⟩ := h
      refine ⟨⟨s.transactions.length + 1, "Add", n, st, s.logged_in_user, ts⟩, ?_, rfl⟩
      simp [applyOp, add_product, h1, h2, Option.isNone_iff_eq_none.mp h3,
        log_transaction]
  | update n pr c st ts =>
      simp only [mutationSucceeds, Bool.and_eq_true] at h
      obtain ⟨⟨h1, h2⟩, h3⟩ := h
      refine ⟨⟨s.transactions.length + 1, "Update", n, st, s.logged_in_user, ts⟩, ?_, rfl⟩
      have h3n : ¬ pyLookup s.inventory n = none := Option.isSome_iff_ne_none.mp h3
      simp [applyOp, update_product, h1, h2, h3n, log_transaction]
  | delete n ts =>
      simp only [mutationSucceeds, Bool.and_eq_true] at h
      obtain ⟨⟨h1, h2⟩, h3⟩ := h
      refine ⟨⟨s.transactions.length + 1, "Delete", n, 0, s.logged_in_user, ts⟩, ?_, rfl⟩
      have h3n : ¬ pyLookup s.inventory n = none := Option.isSome_iff_ne_none.mp h3
      simp [applyOp, delete_product, h1, h2, h3n, log_transaction]

theorem auditIdsDense_applyOp (s : State) (o : Op)
    (h : auditIdsDense s.transactions) :
    auditIdsDense (applyOp s o).transactions := by
  rcases transactions_applyOp s o with he | ⟨t, ht, he⟩
  · rw [he]; exact h
  · rw [he]; exact auditIdsDense_append _ _ h ht

theorem auditIdsDense_runOps (s : State) (ops : List Op)
    (h : auditIdsDense s.transactions) :
    auditIdsDense (runOps s ops).transactions := by
  induction ops generalizing s with
  | nil => exact h
  | cons o rest ih =>
      have hstep : runOps s (o :: rest) = runOps (applyOp s o) rest := by
        simp [runOps]
      rw [hstep]
      exact ih _ (auditIdsDense_applyOp s o h)

/-- C3: every successful add/update/delete appends exactly one audit entry
whose id is the previous length + 1; no operation ever mutates or removes
an existing audit entry (the transaction list either stays the same or
grows by one appended record); hence from any state with an empty audit
log, every reachable state has transaction ids forming the dense sequence
1, 2, ..., n in insertion order. -/
theorem audit_log_dense_sequential :
    (∀ s o, mutationSucceeds s o = true →
        ∃ t : Transaction, (applyOp s o).transactions = s.transactions ++ [t] ∧
          t.id = s.transactions.length + 1) ∧
    (∀ s o, (applyOp s o).transactions = s.transactions ∨
        ∃ t : Transaction, (applyOp s o).transactions = s.transactions ++ [t]) ∧
    (∀ s ops, s.transactions = [] →
        auditIdsDense (runOps s ops).transactions) := by
  refine ⟨mutation_appends, ?_, ?_⟩
  · intro s o
    rcases transactions_applyOp s o with he | ⟨t, _, he⟩
    · exact Or.inl he
    · exact Or.inr ⟨t, he⟩
  · intro s ops h
    apply auditIdsDense_runOps
    rw [h]
    unfold auditIdsDense
    simp

/-- Witness for C3: a concrete run (login, add, update, delete, sell) from
the start state produces audit ids 1, 2, 3. -/
theorem audit_log_dense_sequential_witness :
    auditIdsDense (runOps initState
      [Op.login "harsh" "harsh", Op.add "A" 2 "c" 5 "t1",
       Op.update "A" 3 "d" 7 "t2", Op.sell "A" 2 "t3",
       Op.delete "A" "t4"]).transactions :=
  audit_log_dense_sequential.2.2 initState _ rfl

/-! Stock non-negativity. -/

theorem stocksNonneg_applyOp (s : State) (o : Op)
    (h : stocksNonneg s.inventory) (ho : opStockSafe o) :
    stocksNonneg (applyOp s o).inventory := by
  cases o with
  | login u p =>
      by_cases h1 : credMatch s.admin_credentials u p <;>
        by_cases h2 : credMatch s.user_credentials u p <;>
        simpa [applyOp, login, h1, h2] using h
  | logout => simpa [applyOp, logout] using h
  | add n pr c st ts =>
      by_cases h1 : is_logged_in s = false
      · simpa [applyOp, add_product, h1] using h
      · by_cases h2 : is_admin s = false
        · simpa [applyOp, add_product, h1, h2] using h
        · by_cases h3 : (pyLookup s.inventory n).isSome = true
          · simpa [applyOp, add_product, h1, h2, h3] using h
          · intro r hr
            have hinv : (applyOp s (Op.add n pr c st ts)).inventory
                = pySet s.inventory n ⟨pr, c, st⟩ := by
              simp [applyOp, add_product, h1, h2, h3, log_transaction]
            rw [hinv] at hr
            rcases mem_pySet _ _ _ _ hr with h4 | h4
            · rw [h4]; exact ho
            · exact h r h4
  | update n pr c st ts =>
      by_cases h1 : is_logged_in s = false
      · simpa [applyOp, update_product, h1] using h
      · by_cases h2 : is_admin s = false
        · simpa [applyOp, update_product, h1, h2] using h
        · by_cases h3 : (pyLookup s.inventory n).isNone = true
          · simpa [applyOp, update_product, h1, h2, h3] using h
          · intro r hr
            have hinv : (applyOp s (Op.update n pr c st ts)).inventory
                = pySet s.inventory n ⟨pr, c, st⟩ := by
              simp [applyOp, update_product, h1, h2, h3, log_transaction]
            rw [hinv] at hr
            rcases mem_pySet _ _ _ _ hr with h4 | h4
            · rw [h4]; exact ho
            · exact h r h4
  | delete n ts =>
      by_cases h1 : is_logged_in s = false
      · simpa [applyOp, delete_product, h1] using h
      · by_cases h2 : is_admin s = false
        · simpa [applyOp, delete_product, h1, h2] using h
        · by_cases h3 : (pyLookup s.inventory n).isNone = true
          · simpa [applyOp, delete_product, h1, h2, h3] using h
          · intro r hr
            have hinv : (applyOp s (Op.delete n ts)).inventory
                = pyDel s.inventory n := by
              simp [applyOp, delete_product, h1, h2, h3, log_transaction]
            rw [hinv] at hr
            exact h r (mem_pyDel _ _ _ hr)
  | sell n q ts =>
      by_cases h1 : is_logged_in s = false
      · simpa [applyOp, sale_product, h1] using h
      · cases hp : pyLookup s.inventory n with
        | none => simpa [applyOp, sale_product, h1, hp] using h
        | some p =>
            by_cases h2 : p.stock < q
            · simpa [applyOp, sale_product, h1, hp, h2] using h
            · intro r hr
              have hinv : (applyOp s (Op.sell n q ts)).inventory
                  = pySet s.inventory n ⟨p.price, p.category, p.stock - q⟩ := by
                simp [applyOp, sale_product, h1, hp, h2]
              rw [hinv] at hr
              rcases mem_pySet _ _ _ _ hr with h4 | h4
              · rw [h4]
                exact sub_nonneg.mpr (not_lt.mp h2)
              · exact h r h4

/-- Counterexample to C4 as stated: from the empty start state, the admin
logs in and calls add with stock -1; the resulting reachable state holds a
product with negative stock, because `add_product` writes its stock
argument into the inventory with no sign check. -/
theorem stock_negative_reachable :
    ¬ stocksNonneg (runOps initState
        [Op.login "harsh" "harsh", Op.add "A" 1 "c" (-1) "t"]).inventory := by
  decide

/-- C4 (amended): in every state reachable by add/update/delete/sell (and
login/logout) from a state whose stocks are all non-negative, stocks stay
non-negative, provided every add and update carries a non-negative stock
argument.  No restriction on sell is needed: it succeeds only when
stock is at least the quantity, so the decremented stock stays
non-negative even for negative quantities. -/
theorem stocks_nonneg_invariant (s : State) (ops : List Op)
    (h0 : stocksNonneg s.inventory)
    (hops : ∀ o ∈ ops, opStockSafe o) :
    stocksNonneg (runOps s ops).inventory := by
  induction ops generalizing s with
  | nil => exact h0
  | cons o rest ih =>
      have hstep : runOps s (o :: rest) = runOps (applyOp s o) rest := by
        simp [runOps]
      rw [hstep]
      exact ih _ (stocksNonneg_applyOp s o h0 (hops o (List.mem_cons_self o rest)))
        (fun o2 h2 => hops o2 (List.mem_cons_of_mem o h2))

/-- Witness for the amended C4: a concrete run with non-negative stock
arguments keeps all stocks non-negative. -/
theorem stocks_nonneg_invariant_witness :
    stocksNonneg (runOps initState
      [Op.login "harsh" "harsh", Op.add "A" 2 "c" 5 "t1",
       Op.sell "A" 3 "t2", Op.update "A" 2 "c" 9 "t3"]).inventory :=
  stocks_nonneg_invariant initState _ (by decide) (by decide)

/-- C5: for an admin session, add_product fails with "Product already
exists" when the name is taken, leaving the state unchanged; otherwise it
inserts the product with exactly the given price, category and stock,
appends an audit entry with action "Add" and quantity equal to the stock
argument, and an immediate view_inventory returns rows that include the
added product with exactly those fields. -/
theorem add_product_spec (s : State) (n : String) (price : Int)
    (category : String) (stock : Int) (ts : String)
    (hli : is_logged_in s = true) (hadm : is_admin s = true) :
    ((pyLookup s.inventory n).isSome = true →
        add_product s n price category stock ts = ("Product already exists", s)) ∧
    (pyLookup s.inventory n = none →
        pyLookup (add_product s n price category stock ts).2.inventory n =
          some ⟨price, category, stock⟩ ∧
        (add_product s n price category stock ts).2.transactions =
          s.transactions ++
            [⟨s.transactions.length + 1, "Add", n, stock, s.logged_in_user, ts⟩] ∧
        view_inventory (add_product s n price category stock ts).2 =
          Except.ok (add_product s n price category stock ts).2.inventory ∧
        (n, Product.mk price category stock) ∈
          (add_product s n price category stock ts).2.inventory) := by
  constructor
  · intro hdup
    simp [add_product, hli, hadm, hdup]
  · intro hnew
    have hinv : (add_product s n price category stock ts).2.inventory
        = pySet s.inventory n ⟨price, category, stock⟩ := by
      simp [add_product, hli, hadm, hnew, log_transaction]
    refine ⟨?_, ?_, ?_, ?_⟩
    · rw [hinv]
      exact pyLookup_pySet_self _ _ _
    · simp [add_product, hli, hadm, hnew, log_transaction]
    · have huser : (add_product s n price category stock ts).2.logged_in_user
          = s.logged_in_user := by
        simp [add_product, hli, hadm, hnew, log_transaction]
      have hli2 : s.logged_in_user.isSome = true := hli
      simp [view_inventory, is_logged_in, huser, hli2]
    · rw [hinv]
      exact pyLookup_mem _ _ _ (pyLookup_pySet_self _ _ _)

/-- Witness for C5: the admin adds "W" (price 9, tools, stock 50) to the
empty inventory; the lookup and the view rows show exactly those fields,
and adding "A" again on `stockState` fails with "Product already exists". -/
theorem add_product_spec_witness :
    add_product stockState "A" 9 "x" 1 "t" = ("Product already exists", stockState) ∧
    pyLookup (add_product adminState "W" 9 "tools" 50 "t").2.inventory "W" =
      some ⟨9, "tools", 50⟩ ∧
    ("W", Product.mk 9 "tools" 50) ∈
      (add_product adminState "W" 9 "tools" 50 "t").2.inventory := by
  have h := (add_product_spec adminState "W" 9 "tools" 50 "t" (by decide) (by decide)).2
    (by decide)
  exact ⟨(add_product_spec stockState "A" 9 "x" 1 "t" (by decide) (by decide)).1 (by decide),
    h.1, h.2.2.2⟩

/-- Counterexample to C7 as stated: with the non-admin user logged in and an
empty sales ledger, predict_sales for product "X" does not surface a typed
NoSalesHistory failure; the regression fit on zero samples raises a
ValueError that nothing in the function catches, so the call escapes as an
unhandled fault. -/
theorem predict_no_history_unhandled :
    isUnhandledFault (predict_sales userState "X" 12) = true := by decide

/-- C7 (amended): for every logged-in session and every product with no
entries in the sales ledger, predict_sales propagates an unhandled
ValueError from fitting a regression on zero samples; the code performs no
empty-history check and has no NoSalesHistory failure kind. -/
theorem predict_sales_empty_history (s : State) (n : String) (periods : Nat)
    (hli : is_logged_in s = true)
    (hn : s.sales.filter (fun r => r.product_name = n) = []) :
    predict_sales s n periods =
      PredictResult.unhandled "ValueError: Found array with 0 sample(s)" := by
  simp [predict_sales, hli, hn]

/-- Witness for the amended C7 at a concrete state with an empty ledger. -/
theorem predict_sales_empty_history_witness :
    predict_sales userState "X" 12 =
      PredictResult.unhandled "ValueError: Found array with 0 sample(s)" :=
  predict_sales_empty_history userState "X" 12 (by decide) (by decide)

/-- C8: every operation among add, update, delete, view, search, lowStock,
sortBy, sell, viewTransactions and predict invoked with no active session
fails with the login-required message and returns the state unchanged (the
read operations never touch the state at all); and each of the three
inventory mutations invoked by a logged-in non-admin session fails with
"Admin access required", returning the state unchanged. -/
theorem auth_guards :
    (∀ s n pr c st ts, is_logged_in s = false →
        add_product s n pr c st ts = ("Please login to perform this action", s)) ∧
    (∀ s n pr c st ts, is_logged_in s = false →
        update_product s n pr c st ts = ("Please login to perform this action", s)) ∧
    (∀ s n ts, is_logged_in s = false →
        delete_product s n ts = ("Please login to perform this action", s)) ∧
    (∀ s, is_logged_in s = false →
        view_inventory s = Except.error "Please login to view the inventory") ∧
    (∀ s c, is_logged_in s = false →
        search_products_by_category s c =
          Except.error "Please login to search products") ∧
    (∀ s t, is_logged_in s = false →
        low_stock_alerts s t = Except.error "Please login to view low stock alerts") ∧
    (∀ s bf od, is_logged_in s = false →
        sort_inventory s bf od = Except.error "Please login to sort the inventory") ∧
    (∀ s n q ts, is_logged_in s = false →
        sale_product s n q ts = ("Please login to perform this action", s)) ∧
    (∀ s, is_logged_in s = false →
        view_transactions s = Except.error "Please login to view transactions") ∧
    (∀ s n k, is_logged_in s = false →
        predict_sales s n k = PredictResult.guarded "Please login to perform this action") ∧
    (∀ s n pr c st ts, is_logged_in s = true → is_admin s = false →
        add_product s n pr c st ts = ("Admin access required", s)) ∧
    (∀ s n pr c st ts, is_logged_in s = true → is_admin s = false →
        update_product s n pr c st ts = ("Admin access required", s)) ∧
    (∀ s n ts, is_logged_in s = true → is_admin s = false →
        delete_product s n ts = ("Admin access required", s)) := by
  refine ⟨?_, ?_, ?_, ?_, ?_, ?_, ?_, ?_, ?_, ?_, ?_, ?_, ?_⟩ <;>
    intros <;>
    simp [add_product, update_product, delete_product, view_inventory,
      search_products_by_category, low_stock_alerts, sort_inventory,
      sale_product, view_transactions, predict_sales, *]

/-- Witness for C8: with nobody logged in, add fails with the login
message; with the non-admin user logged in, delete fails with the admin
message; both leave the state unchanged. -/
theorem auth_guards_witness :
    add_product initState "A" 1 "c" 1 "t" =
      ("Please login to perform this action", initState) ∧
    delete_product userState "A" "t" = ("Admin access required", userState) :=
  ⟨auth_guards.1 initState "A" 1 "c" 1 "t" (by decide),
   auth_guards.2.2.2.2.2.2.2.2.2.2.2.2 userState "A" "t" (by decide) (by decide)⟩

/-- C9: login tests the admin credential table first and the user table
second, succeeding with the role of the first match — in particular a
username present in both tables logs in as admin when the admin password
is supplied — and fails with "Invalid credentials", leaving the state
unchanged, when neither table matches. -/
theorem login_checks_admin_first (s : State) (u p : String) :
    (credMatch s.admin_credentials u p = true →
        login s u p = ("Admin login successful",
          { s with logged_in_user := some u, user_role := some "admin" })) ∧
    (credMatch s.admin_credentials u p = false →
        credMatch s.user_credentials u p = true →
        login s u p = ("User login successful",
          { s with logged_in_user := some u, user_role := some "user" })) ∧
    (credMatch s.admin_credentials u p = false →
        credMatch s.user_credentials u p = false →
        login s u p = ("Invalid credentials", s)) := by
  refine ⟨?_, ?_, ?_⟩ <;> intros <;> simp [login, *]

/-- A state whose credential tables share the username "dana" with
different passwords, to exercise the admin-first order of login. -/
def dualCredState : State :=
  { initState with
    admin_credentials := [("dana", "a")]
    user_credentials := [("dana", "b")] }

/-- Witness for C9: "dana" is in both tables; with the admin password the
login lands in the admin branch, the user table matches give the user
role, and a bogus pair is rejected. -/
theorem login_checks_admin_first_witness :
    login dualCredState "dana" "a" = ("Admin login successful",
      { dualCredState with logged_in_user := some "dana", user_role := some "admin" }) ∧
    login initState "user" "user" = ("User login successful",
      { initState with logged_in_user := some "user", user_role := some "user" }) ∧
    login initState "x" "y" = ("Invalid credentials", initState) :=
  ⟨(login_checks_admin_first dualCredState "dana" "a").1 (by decide),
   (login_checks_admin_first initState "user" "user").2.1 (by decide) (by decide),
   (login_checks_admin_first initState "x" "y").2.2 (by decide) (by decide)⟩

/-- C10: a login whose credentials match neither table returns the whole
state unchanged; in particular the previously logged-in principal and role,
if any, stay active. -/
theorem failed_login_keeps_session (s : State) (u p : String)
    (ha : credMatch s.admin_credentials u p = false)
    (hu : credMatch s.user_credentials u p = false) :
    (login s u p).2 = s ∧
    (login s u p).2.logged_in_user = s.logged_in_user ∧
    (login s u p).2.user_role = s.user_role := by
  have h : login s u p = ("Invalid credentials", s) := by simp [login, ha, hu]
  rw [h]
  exact ⟨rfl, rfl, rfl⟩

/-- Witness for C10: after the admin is logged in, a failed login attempt
leaves the admin session in place. -/
theorem failed_login_keeps_session_witness :
    (login adminState "nobody" "nope").2.logged_in_user = some "harsh" ∧
    (login adminState "nobody" "nope").2.user_role = some "admin" := by
  have h := failed_login_keeps_session adminState "nobody" "nope" (by decide) (by decide)
  exact ⟨h.2.1, h.2.2⟩

end IMS
